import Mathlib

/-!
Verification of the chat-app backend relay
(`src/sections/01_rust_projects/030_chat_app_backend/example/src/main.rs`).

The embedding models the shared server state (`ServerState`, lines 13-19),
the tokio broadcast channel the code relies on (capacity 32, line 24), and
the per-connection handler `handle_socket` (lines 45-89) as a small-step
system: the `select!` loop is driven by an external list of events, socket
send successes and failures are supplied by oracles, and every shared-state
effect of the handler is an explicit state transformation.
-/

namespace ChatApp

/-- A chat message payload; the program stores plain `String`s. -/
abbrev Msg := String

/-- A transport frame, following the transport abstraction the program
consumes: each frame received from the websocket is either a text frame
carrying a UTF-8 payload or some other kind of frame. -/
inductive Frame
  | text (s : Msg)
  | other
deriving DecidableEq, Repr

/-- The `val.into_text()` conversion at line 77 of `main.rs`, on the
text-or-other frame abstraction: it yields the payload of a text frame and
fails on any other frame. -/
def Frame.intoText : Frame → Option Msg
  | .text s => some s
  | .other => none

/-- The shared server state of `main.rs`:
`message_history : Arc<Mutex<Vec<String>>>` (line 16) and the broadcast
channel `message_channel` (line 18).  The channel is modelled by the full
log of messages ever sent on it (`channelLog`), the number of live
`Receiver` handles (`receiverCount`, which includes the `_rx` kept alive by
`main` at line 24), and the channel capacity (`32`, line 24).  Each
subscriber additionally holds its own cursor into `channelLog`. -/
structure ServerState where
  messageHistory : List Msg
  channelLog : List Msg
  receiverCount : Nat
  capacity : Nat
deriving DecidableEq, Repr

/-- The state built by `main` (lines 23-24): empty history, empty channel
with capacity 32, and one live receiver (`_rx`, which `main` holds for the
lifetime of the server). -/
def initState : ServerState :=
  { messageHistory := [], channelLog := [], receiverCount := 1, capacity := 32 }

/-- The broadcast `Sender::send` used at line 79, with the semantics of the
tokio broadcast channel: the send fails exactly when the channel is closed,
that is when no `Receiver` handles remain; otherwise the message is
appended to the channel log for every current subscriber, regardless of how
full any subscriber's buffer is. -/
def sendChannel (st : ServerState) (m : Msg) : Except Unit ServerState :=
  if st.receiverCount = 0 then .error ()
  else .ok { st with channelLog := st.channelLog ++ [m] }

/-- The hub is closed (the only terminal condition of the distribution
primitive): every `Receiver` handle has been dropped, so a send reports an
error.  There is no other shutdown mechanism in the program. -/
def hubClosed (st : ServerState) : Prop := st.receiverCount = 0

instance (st : ServerState) : Decidable (hubClosed st) := by
  unfold hubClosed; infer_instance

/-- `message_channel.subscribe()` at line 56: registers a new receiver and
returns its cursor, positioned so that only messages sent after this call
are delivered. -/
def subscribe (st : ServerState) : ServerState × Nat :=
  ({ st with receiverCount := st.receiverCount + 1 }, st.channelLog.length)

/-- Result of one `recv.recv()` on a broadcast receiver. -/
inductive RecvResult
  | message (m : Msg) (newPos : Nat)
  | lagged (missed : Nat) (newPos : Nat)
  | pending
deriving DecidableEq, Repr

/-- `recv.recv()` at line 61, with the tokio broadcast semantics: a
receiver whose cursor has fallen more than `capacity` behind the log has
had its oldest undelivered messages dropped, and its receive reports how
many were missed while advancing the cursor to the oldest retained
message; otherwise the next logged message is delivered and the cursor
advances by one; a caught-up receiver has nothing to deliver. -/
def recvAt (st : ServerState) (pos : Nat) : RecvResult :=
  if pos < st.channelLog.length then
    if st.channelLog.length - pos ≤ st.capacity then
      .message (st.channelLog.getD pos "") (pos + 1)
    else
      .lagged (st.channelLog.length - st.capacity - pos) (st.channelLog.length - st.capacity)
  else .pending

/-- The messages a subscriber with cursor `pos` can still be delivered from
the current log (its future stream, ignoring lag drops). -/
def streamFrom (st : ServerState) (pos : Nat) : List Msg := st.channelLog.drop pos

/-- How one iteration of the `loop` at lines 59-88 ends: proceed to the
next iteration, `break` out of the loop, or `return` from the handler. -/
inductive LoopOutcome
  | next
  | exitLoop
  | retrn
deriving DecidableEq, Repr

/-- One external event that fires one arm of the `select!` at line 60:
either the broadcast receiver produced a result (with the given success of
the subsequent socket send), or the socket produced something. -/
inductive SocketEvent
  | frame (f : Frame)
  | closedOrErr
deriving DecidableEq, Repr

inductive StepEvent
  | hubMsg (sendOk : Bool)
  | socketMsg (ev : SocketEvent)
deriving DecidableEq, Repr

/-- The `val = recv.recv()` arm (lines 61-70): a delivered message is
forwarded to the socket (on send failure the handler returns); any `Err`
from `recv` — closure or lag — exits the loop (`let Ok(val) = val else
break`, lines 62-64).  Returns the new cursor, the messages written to this
client's socket, and how the iteration ends. -/
def recvBranch (res : RecvResult) (pos : Nat) (sendOk : Bool) :
    Nat × List Msg × LoopOutcome :=
  match res with
  | .message m p => if sendOk then (p, [m], .next) else (p, [], .retrn)
  | .lagged _ p => (p, [], .exitLoop)
  | .pending => (pos, [], .next)

/-- The `val = socket.recv()` arm (lines 71-86): a closed or errored socket
exits the loop; a frame is converted with `into_text` — on failure it is
ignored and the loop continues, on success the text is sent on the
broadcast channel (a failed send exits the loop) and then pushed onto
`message_history` (lines 77-85). -/
def socketBranch (st : ServerState) (ev : SocketEvent) : ServerState × LoopOutcome :=
  match ev with
  | .closedOrErr => (st, .exitLoop)
  | .frame f =>
    match f.intoText with
    | none => (st, .next)
    | some text =>
      match sendChannel st text with
      | .error _ => (st, .exitLoop)
      | .ok st' => ({ st' with messageHistory := st'.messageHistory ++ [text] }, .next)

/-- One iteration of the `select!` loop for a session whose receiver cursor
is `pos`: the fired arm determines the new shared state, the new cursor,
the messages written to this client's socket, and how the iteration ends. -/
def loopStep (st : ServerState) (pos : Nat) :
    StepEvent → ServerState × Nat × List Msg × LoopOutcome
  | .hubMsg sendOk => (st, recvBranch (recvAt st pos) pos sendOk)
  | .socketMsg ev => ((socketBranch st ev).1, pos, [], (socketBranch st ev).2)

/-- Runs the `select!` loop over a list of events, stopping as soon as an
iteration breaks or returns; yields the final shared state and everything
written to this client's socket. -/
def runLoop : ServerState → Nat → List StepEvent → ServerState × List Msg
  | st, _, [] => (st, [])
  | st, pos, e :: evs =>
    if (loopStep st pos e).2.2.2 = LoopOutcome.next then
      ((runLoop (loopStep st pos e).1 (loopStep st pos e).2.1 evs).1,
        (loopStep st pos e).2.2.1
          ++ (runLoop (loopStep st pos e).1 (loopStep st pos e).2.1 evs).2)
    else ((loopStep st pos e).1, (loopStep st pos e).2.2.1)

/-- The history-replay loop at lines 49-54: messages of the snapshot are
sent one by one; `ok k` tells whether the `k`-th socket send succeeds; on
the first failure the handler returns at once.  Yields the messages
actually delivered and whether the replay completed. -/
def replayAux (ok : Nat → Bool) : List Msg → Nat → List Msg × Bool
  | [], _ => ([], true)
  | m :: rest, k =>
    if ok k then
      (m :: (replayAux ok rest (k + 1)).1, (replayAux ok rest (k + 1)).2)
    else ([], false)

/-- The whole of `handle_socket` (lines 45-89): clone the history under the
mutex (line 47), replay it to the client (lines 49-54, returning on the
first failed send without ever subscribing), then subscribe (line 56) and
run the `select!` loop (lines 59-88).  `ok` gives the success of each
replay send; the loop's events carry their own send results.  Yields the
final shared state and everything written to this client's socket. -/
def handleSocket (st : ServerState) (ok : Nat → Bool) (evs : List StepEvent) :
    ServerState × List Msg :=
  if (replayAux ok st.messageHistory 0).2 then
    ((runLoop (subscribe st).1 (subscribe st).2 evs).1,
      (replayAux ok st.messageHistory 0).1
        ++ (runLoop (subscribe st).1 (subscribe st).2 evs).2)
  else (st, (replayAux ok st.messageHistory 0).1)

/-- A primitive effect on the shared state. -/
inductive Action
  | sendChannelAct (m : Msg)
  | pushHistoryAct (m : Msg)
deriving DecidableEq, Repr

/-- The shared-state effects of the text-frame branch (lines 77-85), in
program order: line 79 performs the broadcast send (the fan-out), and only
when it succeeds does line 84 push the message onto `message_history`; on a
failed send the handler breaks before reaching the push. -/
def textFrameEffects (text : Msg) (channelOpen : Bool) : List Action :=
  if channelOpen then [.sendChannelAct text, .pushHistoryAct text]
  else [.sendChannelAct text]

/-- Interpretation of a primitive effect on the shared state. -/
def applyAction (st : ServerState) : Action → ServerState
  | .sendChannelAct m =>
    if st.receiverCount = 0 then st
    else { st with channelLog := st.channelLog ++ [m] }
  | .pushHistoryAct m => { st with messageHistory := st.messageHistory ++ [m] }

/-- The effect-trace view agrees with the step-function view of the
text-frame branch. -/
theorem textFrameEffects_sound (st : ServerState) (t : Msg) :
    (textFrameEffects t (st.receiverCount != 0)).foldl applyAction st
      = (socketBranch st (.frame (.text t))).1 := by
  by_cases h : st.receiverCount = 0 <;>
    simp [textFrameEffects, applyAction, socketBranch, sendChannel, Frame.intoText, h]

/-- The join sequence of `handle_socket` as the source orders it, with one
concurrent publish interleaved in the gap: the history is cloned (line 47),
then another session publishes `m`, then the subscription is created
(line 56).  Yields the snapshot the joiner replays and the stream its
subscription can still deliver from the log. -/
def nonAtomicJoin (st : ServerState) (m : Msg) : List Msg × List Msg :=
  let snapshot := st.messageHistory
  let st1 := (socketBranch st (.frame (.text m))).1
  let s := subscribe st1
  (snapshot, streamFrom s.1 s.2)

/-- C1: the claimed atomic join fails on the code.  The handler clones the
history (line 47) and subscribes (line 56) in two separate steps with no
common critical section; on the fresh server, a message published in the
gap between the two is absent from the joiner's snapshot and its
subscription cursor is already past it, so it is missing from both. -/
theorem C1_nonatomic_join_drops_message :
    nonAtomicJoin initState "hello" = ([], []) ∧
    "hello" ∉ (nonAtomicJoin initState "hello").1 ∧
    "hello" ∉ (nonAtomicJoin initState "hello").2 := by
  decide

/-- C2 counterexample: on text `"hi"` with the channel open, the handler's
shared-state effects are the broadcast send followed by the history push —
not the claimed history-append followed by fan-out. -/
theorem C2_append_first_counterexample :
    textFrameEffects "hi" true
        = [Action.sendChannelAct "hi", Action.pushHistoryAct "hi"] ∧
    textFrameEffects "hi" true
        ≠ [Action.pushHistoryAct "hi", Action.sendChannelAct "hi"] := by
  decide

/-- C2 amended: publishing first fans the message out on the broadcast
channel (line 79) and then appends it to the History (line 84), and this
effect trace computes exactly the state change of the text-frame branch. -/
theorem C2_fanout_then_append (t : Msg) (st : ServerState) :
    textFrameEffects t true
        = [Action.sendChannelAct t, Action.pushHistoryAct t] ∧
    (textFrameEffects t (st.receiverCount != 0)).foldl applyAction st
      = (socketBranch st (.frame (.text t))).1 := by
  exact ⟨by simp [textFrameEffects], textFrameEffects_sound st t⟩

/-- C10: when the broadcast send of a text fails (the channel is closed),
the handler breaks before line 84, so the History is left exactly as it
was and the whole shared state is unchanged. -/
theorem C10_failed_publish_leaves_history (st : ServerState) (t : Msg)
    (h : hubClosed st) :
    (socketBranch st (.frame (.text t))).1.messageHistory = st.messageHistory ∧
    socketBranch st (.frame (.text t)) = (st, LoopOutcome.exitLoop) := by
  unfold hubClosed at h
  simp [socketBranch, Frame.intoText, sendChannel, h]

/-- A shared state whose broadcast channel is closed (no receivers). -/
def closedState : ServerState :=
  { messageHistory := ["a"], channelLog := ["a"], receiverCount := 0, capacity := 32 }

/-- C10 at a concrete closed state. -/
theorem C10_failed_publish_leaves_history_witness :
    (socketBranch closedState (.frame (.text "b"))).1.messageHistory
        = closedState.messageHistory ∧
    socketBranch closedState (.frame (.text "b")) = (closedState, LoopOutcome.exitLoop) :=
  C10_failed_publish_leaves_history closedState "b" rfl

/-- A shared state with the program's capacity 32 whose channel log has
grown 33 messages past a receiver still at cursor 0: that receiver has
lagged past the buffer. -/
def laggedState : ServerState :=
  { messageHistory := List.replicate 33 "m", channelLog := List.replicate 33 "m",
    receiverCount := 2, capacity := 32 }

/-- C3 counterexample: at a lagged receiver, the next receive reports the
lag, but the session's loop iteration ends with `break` — the `let Ok(val)
= val else break` at lines 62-64 treats the lag error like closure — so
the session terminates instead of continuing as claimed. -/
theorem C3_lag_continues_counterexample :
    recvAt laggedState 0 = RecvResult.lagged 1 1 ∧
    (loopStep laggedState 0 (StepEvent.hubMsg true)).2.2.2 = LoopOutcome.exitLoop ∧
    LoopOutcome.exitLoop ≠ LoopOutcome.next := by
  decide

/-- C3 amended: when a subscriber falls behind the bounded buffer, the
oldest undelivered messages are dropped (the cursor jumps to the oldest
retained message) and its next receive returns a lag notification, but the
session treats that notification like closure and exits its loop,
terminating rather than continuing. -/
theorem C3_lag_terminates_session (st : ServerState) (pos : Nat) (sendOk : Bool)
    (h : st.capacity < st.channelLog.length - pos) :
    recvAt st pos
        = RecvResult.lagged (st.channelLog.length - st.capacity - pos)
            (st.channelLog.length - st.capacity) ∧
    (loopStep st pos (StepEvent.hubMsg sendOk)).2.2.2 = LoopOutcome.exitLoop := by
  have hlt : pos < st.channelLog.length := by omega
  have hnot : ¬ (st.channelLog.length - pos ≤ st.capacity) := by omega
  refine ⟨by simp [recvAt, hlt, hnot], ?_⟩
  simp [loopStep, recvBranch, recvAt, hlt, hnot]

/-- C3 amended, at the concrete lagged state. -/
theorem C3_lag_terminates_session_witness :
    recvAt laggedState 0
        = RecvResult.lagged (laggedState.channelLog.length - laggedState.capacity - 0)
            (laggedState.channelLog.length - laggedState.capacity) ∧
    (loopStep laggedState 0 (StepEvent.hubMsg true)).2.2.2 = LoopOutcome.exitLoop :=
  C3_lag_terminates_session laggedState 0 true (by decide)

/-- C9: the broadcast send fails exactly when the channel is closed (all
receivers gone — the only terminal condition the program has); with any
receiver present it succeeds whatever the log length or buffer occupancy,
appending the message for every subscriber; and a failed send makes the
publishing session break out of its loop (the terminal signal reaches the
caller). -/
theorem C9_publish_fails_only_when_closed (st : ServerState) (m : Msg) :
    (sendChannel st m = Except.error () ↔ hubClosed st) ∧
    (¬ hubClosed st →
      sendChannel st m = Except.ok { st with channelLog := st.channelLog ++ [m] }) ∧
    (hubClosed st → socketBranch st (.frame (.text m)) = (st, LoopOutcome.exitLoop)) := by
  unfold hubClosed
  by_cases h : st.receiverCount = 0 <;>
    simp [sendChannel, socketBranch, Frame.intoText, h]

/-- C9 at the initial state, which keeps one receiver alive. -/
theorem C9_publish_fails_only_when_closed_witness :
    sendChannel initState "x"
      = Except.ok { initState with channelLog := initState.channelLog ++ ["x"] } :=
  (C9_publish_fails_only_when_closed initState "x").2.1 (by decide)

/-- C8: a frame that is not a text frame is silently ignored — the branch
leaves the shared state untouched and the loop continues, with no error
and no termination; and any state change of the socket branch on a frame
can only come from a text frame. -/
theorem C8_nontext_silently_ignored (st : ServerState) (f : Frame) :
    (f.intoText = none → socketBranch st (.frame f) = (st, LoopOutcome.next)) ∧
    ((socketBranch st (.frame f)).1 ≠ st → ∃ s, f = Frame.text s) := by
  cases f with
  | text s =>
    refine ⟨fun h => by simp [Frame.intoText] at h, fun _ => ⟨s, rfl⟩⟩
  | other =>
    refine ⟨fun _ => by simp [socketBranch, Frame.intoText], fun h => ?_⟩
    exact absurd (rfl : (socketBranch st (.frame Frame.other)).1 = st) h

/-- C8 at a concrete non-text frame. -/
theorem C8_nontext_silently_ignored_witness :
    socketBranch initState (.frame Frame.other) = (initState, LoopOutcome.next) :=
  (C8_nontext_silently_ignored initState Frame.other).1 rfl

/-- C4: a published text reaches every subscriber verbatim: the future
stream of any subscriber cursor gains exactly the published string, and a
caught-up subscriber — in particular the originating session itself, which
is a subscriber like any other — has its next loop iteration deliver
exactly that string to its client socket, unmodified. -/
theorem C4_verbatim_including_originator (st : ServerState) (t : Msg) (pos : Nat)
    (hopen : ¬ hubClosed st) (hpos : pos ≤ st.channelLog.length) :
    streamFrom (socketBranch st (.frame (.text t))).1 pos
        = streamFrom st pos ++ [t] ∧
    (pos = st.channelLog.length → 1 ≤ st.capacity →
      loopStep (socketBranch st (.frame (.text t))).1 pos (StepEvent.hubMsg true)
        = ((socketBranch st (.frame (.text t))).1, pos + 1, [t], LoopOutcome.next)) := by
  unfold hubClosed at hopen
  have hbr : (socketBranch st (.frame (.text t))).1
      = { st with channelLog := st.channelLog ++ [t],
                  messageHistory := st.messageHistory ++ [t] } := by
    simp [socketBranch, Frame.intoText, sendChannel, hopen]
  constructor
  · rw [hbr]
    simp [streamFrom, List.drop_append_eq_append_drop, Nat.sub_eq_zero_of_le hpos]
  · intro hcaught hcap
    subst hcaught
    rw [hbr]
    have hrecv :
        recvAt { st with channelLog := st.channelLog ++ [t],
                         messageHistory := st.messageHistory ++ [t] }
            st.channelLog.length
          = RecvResult.message t (st.channelLog.length + 1) := by
      unfold recvAt
      rw [if_pos (by simp), if_pos (by simp; omega)]
      congr 1
      simp [List.getD, List.getElem?_append_right]
    simp [loopStep, recvBranch, hrecv]

/-- C4 on the fresh server: the originator publishes and its own next
receive hands the very same string back for forwarding. -/
theorem C4_verbatim_including_originator_witness :
    streamFrom (socketBranch initState (.frame (.text "hello"))).1 0
        = streamFrom initState 0 ++ ["hello"] ∧
    loopStep (socketBranch initState (.frame (.text "hello"))).1 0 (StepEvent.hubMsg true)
      = ((socketBranch initState (.frame (.text "hello"))).1, 0 + 1, ["hello"],
          LoopOutcome.next) := by
  have h := C4_verbatim_including_originator initState "hello" 0 (by decide) (by decide)
  exact ⟨h.1, h.2 rfl (by decide)⟩

/-- Any single loop iteration either leaves `message_history` unchanged or
appends exactly one message at its end. -/
theorem loopStep_history_cases (st : ServerState) (pos : Nat) (e : StepEvent) :
    (loopStep st pos e).1.messageHistory = st.messageHistory ∨
      ∃ m, (loopStep st pos e).1.messageHistory = st.messageHistory ++ [m] := by
  cases e with
  | hubMsg sendOk => exact Or.inl rfl
  | socketMsg ev =>
    cases ev with
    | closedOrErr => exact Or.inl rfl
    | frame f =>
      cases f with
      | other => exact Or.inl rfl
      | text s =>
        by_cases h : st.receiverCount = 0
        · exact Or.inl (by simp [loopStep, socketBranch, Frame.intoText, sendChannel, h])
        · exact Or.inr ⟨s, by simp [loopStep, socketBranch, Frame.intoText, sendChannel, h]⟩

/-- Along any run of the loop, the history only grows at the end. -/
theorem runLoop_history_grows :
    ∀ (evs : List StepEvent) (st : ServerState) (pos : Nat),
      st.messageHistory <+: (runLoop st pos evs).1.messageHistory
  | [], _, _ => List.prefix_refl _
  | e :: evs, st, pos => by
    have hstep : st.messageHistory <+: (loopStep st pos e).1.messageHistory := by
      rcases loopStep_history_cases st pos e with h | ⟨m, h⟩
      · rw [h]
      · rw [h]; exact List.prefix_append _ _
    rw [runLoop]
    by_cases h : (loopStep st pos e).2.2.2 = LoopOutcome.next
    · rw [if_pos h]
      exact hstep.trans (runLoop_history_grows evs _ _)
    · rw [if_neg h]
      exact hstep

/-- Across a whole session — replay, subscribe and loop — the history only
grows at the end. -/
theorem handleSocket_history_grows (st : ServerState) (ok : Nat → Bool)
    (evs : List StepEvent) :
    st.messageHistory <+: (handleSocket st ok evs).1.messageHistory := by
  unfold handleSocket
  by_cases h : (replayAux ok st.messageHistory 0).2
  · rw [if_pos h]
    exact runLoop_history_grows evs (subscribe st).1 (subscribe st).2
  · rw [if_neg h]

/-- A single loop iteration keeps the history equal to the channel log: the
only write pushes exactly the message that was just fanned out. -/
theorem loopStep_history_eq_log (st : ServerState) (pos : Nat) (e : StepEvent)
    (h : st.messageHistory = st.channelLog) :
    (loopStep st pos e).1.messageHistory = (loopStep st pos e).1.channelLog := by
  cases e with
  | hubMsg sendOk => exact h
  | socketMsg ev =>
    cases ev with
    | closedOrErr => exact h
    | frame f =>
      cases f with
      | other => exact h
      | text s =>
        by_cases hr : st.receiverCount = 0 <;>
          simp [loopStep, socketBranch, Frame.intoText, sendChannel, hr, h]

/-- A fine-grained action either leaves the history unchanged (the
channel send never touches it) or appends exactly one message at its
end (the history push). -/
theorem applyAction_history_cases (st : ServerState) (a : Action) :
    (applyAction st a).messageHistory = st.messageHistory ∨
      ∃ m, (applyAction st a).messageHistory = st.messageHistory ++ [m] := by
  cases a with
  | sendChannelAct m =>
    left
    by_cases h : st.receiverCount = 0 <;> simp [applyAction, h]
  | pushHistoryAct m => exact Or.inr ⟨m, rfl⟩

/-- Along any trace of fine-grained actions — in particular any
interleaving of several sessions' publish effects — the history only
grows at the end. -/
theorem foldl_history_grows :
    ∀ (tr : List Action) (st : ServerState),
      st.messageHistory <+: (tr.foldl applyAction st).messageHistory
  | [], _ => List.prefix_refl _
  | a :: tr, st => by
    have h1 : st.messageHistory <+: (applyAction st a).messageHistory := by
      rcases applyAction_history_cases st a with h | ⟨m, h⟩
      · rw [h]
      · rw [h]; exact List.prefix_append _ _
    rw [List.foldl_cons]
    exact h1.trans (foldl_history_grows tr (applyAction st a))

/-- `interleaves xs ys l` holds when `l` is a merge of `xs` and `ys` that
keeps the internal order of each: each step of `l` consumes the head of
one of the two. -/
def interleaves : List Action → List Action → List Action → Bool
  | [], [], [] => true
  | xs, ys, a :: l =>
    (match xs with
     | x :: xs' => x == a && interleaves xs' ys l
     | [] => false)
    || (match ys with
        | y :: ys' => y == a && interleaves xs ys' l
        | [] => false)
  | _, _, [] => false

/-- Two publishers' effect sequences interleaved as the separately
synchronized line-79 sends and line-84 pushes allow: both sends happen
before either push, and the pushes land in the opposite order. -/
def raceTrace : List Action :=
  [.sendChannelAct "x", .sendChannelAct "y", .pushHistoryAct "y", .pushHistoryAct "x"]

/-- C5 counterexample: the channel send (line 79) and the history push
(line 84) are separately synchronized, so two concurrent publishers can
interleave — each preserving its own program order of send-then-push — in
a way that leaves the broadcast (publish) order `[x, y]` but the History
in insertion order `[y, x]`: insertion order need not equal publish
order. -/
theorem C5_order_counterexample :
    interleaves (textFrameEffects "x" true) (textFrameEffects "y" true) raceTrace = true ∧
    (raceTrace.foldl applyAction initState).channelLog = ["x", "y"] ∧
    (raceTrace.foldl applyAction initState).messageHistory = ["y", "x"] ∧
    (raceTrace.foldl applyAction initState).messageHistory
      ≠ (raceTrace.foldl applyAction initState).channelLog := by
  decide

/-- C5 amended: the History is append-only.  Every fine-grained action and
every loop iteration either reads it or appends exactly one message at its
end; along any interleaved action trace, any run of the loop and any whole
session, the old history is a prefix of the new one (it is never mutated
in place and never truncated); and one serialized publish step preserves
the agreement between insertion order and publish order, though concurrent
interleavings of the separately synchronized send and push need not. -/
theorem C5_history_append_only_monotone :
    (∀ (st : ServerState) (a : Action),
      (applyAction st a).messageHistory = st.messageHistory ∨
        ∃ m, (applyAction st a).messageHistory = st.messageHistory ++ [m]) ∧
    (∀ (tr : List Action) (st : ServerState),
      st.messageHistory <+: (tr.foldl applyAction st).messageHistory) ∧
    (∀ (st : ServerState) (pos : Nat) (e : StepEvent),
      (loopStep st pos e).1.messageHistory = st.messageHistory ∨
        ∃ m, (loopStep st pos e).1.messageHistory = st.messageHistory ++ [m]) ∧
    (∀ (st : ServerState) (pos : Nat) (evs : List StepEvent),
      st.messageHistory <+: (runLoop st pos evs).1.messageHistory) ∧
    (∀ (st : ServerState) (ok : Nat → Bool) (evs : List StepEvent),
      st.messageHistory <+: (handleSocket st ok evs).1.messageHistory) ∧
    (∀ (st : ServerState) (pos : Nat) (e : StepEvent),
      st.messageHistory = st.channelLog →
        (loopStep st pos e).1.messageHistory = (loopStep st pos e).1.channelLog) :=
  ⟨applyAction_history_cases, foldl_history_grows, loopStep_history_cases,
    fun st pos evs => runLoop_history_grows evs st pos,
    handleSocket_history_grows, loopStep_history_eq_log⟩

/-- C5 amended, at a concrete publish step from the initial state. -/
theorem C5_history_append_only_monotone_witness :
    (loopStep initState 0 (StepEvent.socketMsg (SocketEvent.frame (Frame.text "a")))).1.messageHistory
      = (loopStep initState 0 (StepEvent.socketMsg (SocketEvent.frame (Frame.text "a")))).1.channelLog :=
  C5_history_append_only_monotone.2.2.2.2.2 initState 0 _ rfl

/-- When every socket send succeeds, the replay loop delivers the whole
snapshot and reports completion. -/
theorem replayAux_all_ok (ok : Nat → Bool) (h : ∀ k, ok k = true) :
    ∀ (l : List Msg) (k : Nat), replayAux ok l k = (l, true) := by
  intro l
  induction l with
  | nil => intro k; rfl
  | cons m rest ih =>
    intro k
    rw [replayAux, h k, if_pos rfl, ih (k + 1)]

/-- C6: when the sends succeed, everything written to a client's socket is
exactly the history snapshot, in order and oldest first, followed by
whatever the live loop later forwards: the replay completes before any
live message is forwarded. -/
theorem C6_replay_before_live (st : ServerState) (ok : Nat → Bool)
    (evs : List StepEvent) (h : ∀ k, ok k = true) :
    (handleSocket st ok evs).2
      = st.messageHistory ++ (runLoop (subscribe st).1 (subscribe st).2 evs).2 := by
  unfold handleSocket
  rw [replayAux_all_ok ok h st.messageHistory 0]
  simp

/-- A state whose history already holds two messages. -/
def histState : ServerState :=
  { messageHistory := ["a", "b"], channelLog := ["a", "b"],
    receiverCount := 1, capacity := 32 }

/-- C6 at a concrete two-message history. -/
theorem C6_replay_before_live_witness :
    (handleSocket histState (fun _ => true) []).2
      = histState.messageHistory
          ++ (runLoop (subscribe histState).1 (subscribe histState).2 []).2 :=
  C6_replay_before_live histState (fun _ => true) [] (fun _ => rfl)

/-- When the `j`-th send is the first to fail, the replay loop delivers
exactly the first `j` snapshot messages and reports failure. -/
theorem replayAux_first_fail (ok : Nat → Bool) :
    ∀ (l : List Msg) (k j : Nat), j < l.length → ok (k + j) = false →
      (∀ i, i < j → ok (k + i) = true) →
      replayAux ok l k = (l.take j, false) := by
  intro l
  induction l with
  | nil => intro k j hj _ _; simp at hj
  | cons m rest ih =>
    intro k j hj hfail hmin
    cases j with
    | zero =>
      have h0 : ok k = false := by simpa using hfail
      simp [replayAux, h0]
    | succ j' =>
      have hok : ok k = true := by simpa using hmin 0 (Nat.succ_pos j')
      have hfail' : ok (k + 1 + j') = false := by
        rw [show k + 1 + j' = k + (j' + 1) from by omega]; exact hfail
      have hmin' : ∀ i, i < j' → ok (k + 1 + i) = true := by
        intro i hi
        rw [show k + 1 + i = k + (i + 1) from by omega]
        exact hmin (i + 1) (by omega)
      rw [replayAux, hok, if_pos rfl,
        ih (k + 1) j' (by simpa using hj) hfail' hmin']
      simp

/-- C7: if the `j`-th replay send is the first to fail, the session ends
with only the first `j` snapshot messages delivered — the loop is never
entered, nothing is retried, no subscription is registered, and the shared
state (history, channel, receivers) is left exactly as it was, so nothing
surfaces to other sessions or the hub. -/
theorem C7_replay_failure_isolated (st : ServerState) (ok : Nat → Bool)
    (evs : List StepEvent) (j : Nat)
    (hj : j < st.messageHistory.length) (hfail : ok j = false)
    (hmin : ∀ i, i < j → ok i = true) :
    handleSocket st ok evs = (st, st.messageHistory.take j) := by
  unfold handleSocket
  rw [replayAux_first_fail ok st.messageHistory 0 j hj (by simpa using hfail)
    (fun i hi => by simpa using hmin i hi)]
  simp

/-- C7 with the very first send failing on a two-message history. -/
theorem C7_replay_failure_isolated_witness :
    handleSocket histState (fun _ => false) []
      = (histState, histState.messageHistory.take 0) :=
  C7_replay_failure_isolated histState (fun _ => false) [] 0 (by decide) rfl
    (fun i hi => absurd hi (Nat.not_lt_zero i))
